import Mathlib

/-!
Verification of the application launcher in
`src/TimelineEditor/qt/main.cpp`.

The source is a single entry point that performs a fixed sequence of
framework calls and then either fails fast or runs the event loop:

    QCoreApplication::setAttribute(Qt::AA_EnableHighDpiScaling);
    QLoggingCategory::setFilterRules("qt.webengine*=true");
    QGuiApplication app(argc, argv);
    QtWebEngine::initialize();
    QQmlApplicationEngine engine;
    engine.load(QUrl(QStringLiteral("qrc:/main.qml")));
    if (engine.rootObjects().isEmpty())
        return -1;
    return app.exec();

We embed it as a trace semantics: each framework call is an observable
effect, and the framework's own contribution (which root objects the QML
load produces, and what `app.exec()` returns) is an environment parameter.
`main` maps the environment and the process arguments to the ordered list
of effects it performs together with its exit status.
-/

namespace TimelineEditor

/-- An observable effect of the entry point. One constructor per framework
call appearing in `main.cpp`, in the order they appear there, plus
`queryRootObjects` for the read of `engine.rootObjects()` that drives the
branch. The constructors `shutdownWebEngine` and `emitMessage` name effects
the framework vocabulary offers but that this code never performs; they let
us state that no teardown or message emission happens on the failure path. -/
inductive Effect where
  /-- `QCoreApplication::setAttribute(...)` with the given attribute name. -/
  | setAttribute (attr : String)
  /-- `QLoggingCategory::setFilterRules(rules)`. -/
  | setFilterRules (rules : String)
  /-- Construction of `QGuiApplication app(argc, argv)`. The payload records
  exactly the argument values handed to the constructor. -/
  | constructApp (argc : Int) (argv : List String)
  /-- `QtWebEngine::initialize()`. -/
  | webEngineInitialize
  /-- Construction of `QQmlApplicationEngine engine`. -/
  | constructEngine
  /-- `engine.load(QUrl(...))` with the given url text. -/
  | load (url : String)
  /-- The read of `engine.rootObjects()` feeding the `isEmpty` branch. -/
  | queryRootObjects
  /-- The blocking call `app.exec()`. -/
  | execLoop
  /-- A shutdown of the web-engine subsystem (never performed by this code). -/
  | shutdownWebEngine
  /-- Emission of a diagnostic message (never performed by this code). -/
  | emitMessage (msg : String)
  deriving DecidableEq, Repr

/-- The constructor tag of an effect, forgetting its payload. Used to speak
about which kind of call happens where in a trace independently of the
values carried by the call. -/
inductive EffectKind where
  | setAttribute
  | setFilterRules
  | constructApp
  | webEngineInitialize
  | constructEngine
  | load
  | queryRootObjects
  | execLoop
  | shutdownWebEngine
  | emitMessage
  deriving DecidableEq, BEq, Repr

/-- Map an effect to its kind. -/
def Effect.kind : Effect → EffectKind
  | .setAttribute _ => .setAttribute
  | .setFilterRules _ => .setFilterRules
  | .constructApp _ _ => .constructApp
  | .webEngineInitialize => .webEngineInitialize
  | .constructEngine => .constructEngine
  | .load _ => .load
  | .queryRootObjects => .queryRootObjects
  | .execLoop => .execLoop
  | .shutdownWebEngine => .shutdownWebEngine
  | .emitMessage _ => .emitMessage

/-- The framework-owned part of an execution: which root objects the
declarative engine holds after the `load` call (empty means the load
failed), and the value the blocking event loop returns if it is entered.
Root objects are opaque and modelled by identifiers. -/
structure Env where
  rootObjects : List Nat
  execResult : Int
  deriving Repr

/-- The effects `main` performs unconditionally before the branch on
`engine.rootObjects().isEmpty()`, in source order (lines 8 to 19 of
`main.cpp`). -/
def initTrace (argc : Int) (argv : List String) : List Effect :=
  [Effect.setAttribute "Qt.AA_EnableHighDpiScaling",
   Effect.setFilterRules "qt.webengine*=true",
   Effect.constructApp argc argv,
   Effect.webEngineInitialize,
   Effect.constructEngine,
   Effect.load "qrc:/main.qml",
   Effect.queryRootObjects]

/-- The entry point of `main.cpp`: given the framework environment and the
process arguments, the ordered trace of effects performed and the exit
status returned. If the root-object collection observed after the load is
empty, `main` returns `-1` right away; otherwise it calls `app.exec()` and
returns its value. -/
def main (env : Env) (argc : Int) (argv : List String) : List Effect × Int :=
  if env.rootObjects.isEmpty then
    (initTrace argc argv, -1)
  else
    (initTrace argc argv ++ [Effect.execLoop], env.execResult)

/-- How many effects of kind `k` a trace contains. -/
def countKind (t : List Effect) (k : EffectKind) : Nat :=
  t.countP (fun e => e.kind == k)

/-- Kind `a` occurs exactly once in `t`, kind `b` occurs exactly once in
`t`, and the occurrence of `a` is strictly earlier than the occurrence of
`b`. -/
def occursBeforeB (t : List Effect) (a b : EffectKind) : Bool :=
  (countKind t a == 1) && (countKind t b == 1) &&
    Nat.blt (t.findIdx fun e => e.kind == a) (t.findIdx fun e => e.kind == b)

/-- An execution result took the early-failure branch exactly when the
event loop was never entered. -/
def tookFailureBranch (r : List Effect × Int) : Prop :=
  Effect.execLoop ∉ r.1

end TimelineEditor

namespace TimelineEditor

/-- On the failure branch (empty root-object collection) `main` evaluates
to the initialization trace paired with exit status `-1`. -/
theorem main_eq_of_empty (env : Env) (argc : Int) (argv : List String)
    (h : env.rootObjects.isEmpty = true) :
    main env argc argv = (initTrace argc argv, -1) := by
  simp [main, h]

/-- On the success branch (nonempty root-object collection) `main`
evaluates to the initialization trace extended by the event-loop effect,
paired with the event loop's return value. -/
theorem main_eq_of_nonempty (env : Env) (argc : Int) (argv : List String)
    (h : env.rootObjects.isEmpty = false) :
    main env argc argv
      = (initTrace argc argv ++ [Effect.execLoop], env.execResult) := by
  simp [main, h]

/-- C1: whenever the load leaves the engine with zero root objects, `main`
returns exit status `-1` and the event loop (`app.exec()`) is never
entered. -/
theorem main_exits_neg_one_of_no_root_objects
    (env : Env) (argc : Int) (argv : List String)
    (h : env.rootObjects.isEmpty = true) :
    (main env argc argv).2 = -1 ∧
      countKind (main env argc argv).1 .execLoop = 0 := by
  rw [main_eq_of_empty env argc argv h]
  exact ⟨rfl, rfl⟩

/-- Witness for C1 at the environment with no root objects. -/
theorem main_exits_neg_one_of_no_root_objects_witness :
    (Env.mk [] 0).rootObjects.isEmpty = true ∧
      ((main (Env.mk [] 0) 0 []).2 = -1 ∧
        countKind (main (Env.mk [] 0) 0 []).1 .execLoop = 0) :=
  ⟨rfl, main_exits_neg_one_of_no_root_objects (Env.mk [] 0) 0 [] rfl⟩

/-- C2: whenever the load produces at least one root object, `main` enters
the event loop (the `execLoop` effect is performed, exactly once, as the
last effect) and returns exactly the event loop's own return value as the
exit status. -/
theorem main_returns_exec_result_of_root_objects
    (env : Env) (argc : Int) (argv : List String)
    (h : env.rootObjects.isEmpty = false) :
    (main env argc argv).2 = env.execResult ∧
      countKind (main env argc argv).1 .execLoop = 1 ∧
      (main env argc argv).1.getLast? = some Effect.execLoop := by
  rw [main_eq_of_nonempty env argc argv h]
  exact ⟨rfl, rfl, rfl⟩

/-- Witness for C2 at an environment with one root object and event-loop
result `7`. -/
theorem main_returns_exec_result_of_root_objects_witness :
    (Env.mk [1] 7).rootObjects.isEmpty = false ∧
      ((main (Env.mk [1] 7) 1 ["timeline"]).2 = (Env.mk [1] 7).execResult ∧
        countKind (main (Env.mk [1] 7) 1 ["timeline"]).1 .execLoop = 1 ∧
        (main (Env.mk [1] 7) 1 ["timeline"]).1.getLast?
          = some Effect.execLoop) :=
  ⟨rfl,
    main_returns_exec_result_of_root_objects (Env.mk [1] 7) 1 ["timeline"] rfl⟩

/-- C3: in every execution, the high-DPI scaling attribute is set, and this
effect occurs strictly before the construction of the application
object. -/
theorem highdpi_set_before_app_construction
    (env : Env) (argc : Int) (argv : List String) :
    Effect.setAttribute "Qt.AA_EnableHighDpiScaling" ∈ (main env argc argv).1 ∧
      occursBeforeB (main env argc argv).1 .setAttribute .constructApp
        = true := by
  cases h : env.rootObjects.isEmpty
  · rw [main_eq_of_nonempty env argc argv h]
    exact ⟨by simp [initTrace], rfl⟩
  · rw [main_eq_of_empty env argc argv h]
    exact ⟨by simp [initTrace], rfl⟩

/-- C4: in every execution, the logging filter rules are installed strictly
before the web-engine subsystem is initialized. -/
theorem filter_rules_before_webengine_init
    (env : Env) (argc : Int) (argv : List String) :
    occursBeforeB (main env argc argv).1 .setFilterRules .webEngineInitialize
      = true := by
  cases h : env.rootObjects.isEmpty
  · rw [main_eq_of_nonempty env argc argv h]
    rfl
  · rw [main_eq_of_empty env argc argv h]
    rfl

/-- C5: in every execution, the web-engine subsystem is initialized
strictly after the application object is constructed and strictly before
the declarative engine is asked to load the UI description. -/
theorem webengine_init_after_app_before_load
    (env : Env) (argc : Int) (argv : List String) :
    occursBeforeB (main env argc argv).1 .constructApp .webEngineInitialize
        = true ∧
      occursBeforeB (main env argc argv).1 .webEngineInitialize .load
        = true := by
  cases h : env.rootObjects.isEmpty
  · rw [main_eq_of_nonempty env argc argv h]
    exact ⟨rfl, rfl⟩
  · rw [main_eq_of_empty env argc argv h]
    exact ⟨rfl, rfl⟩

/-- C6: in every execution, the declarative engine is asked to load the
fixed resource identifier "qrc:/main.qml", and any load effect performed
carries exactly this constant, whatever the environment and the arguments
are. -/
theorem load_requests_fixed_resource
    (env : Env) (argc : Int) (argv : List String) :
    Effect.load "qrc:/main.qml" ∈ (main env argc argv).1 ∧
      ∀ u, Effect.load u ∈ (main env argc argv).1 → u = "qrc:/main.qml" := by
  cases h : env.rootObjects.isEmpty
  · rw [main_eq_of_nonempty env argc argv h]
    refine ⟨by simp [initTrace], ?_⟩
    intro u hu
    simp [initTrace] at hu
    exact hu
  · rw [main_eq_of_empty env argc argv h]
    refine ⟨by simp [initTrace], ?_⟩
    intro u hu
    simp [initTrace] at hu
    exact hu

/-- Witness for C6: the load-effect uniqueness applied at the load effect
`main` itself performs. -/
theorem load_requests_fixed_resource_witness :
    Effect.load "qrc:/main.qml" ∈ (main (Env.mk [] 0) 0 []).1 ∧
      "qrc:/main.qml" = "qrc:/main.qml" :=
  ⟨(load_requests_fixed_resource (Env.mk [] 0) 0 []).1,
    (load_requests_fixed_resource (Env.mk [] 0) 0 []).2 "qrc:/main.qml"
      (load_requests_fixed_resource (Env.mk [] 0) 0 []).1⟩

/-- C7: in every execution, the application object is constructed with
exactly the `argc` and `argv` that `main` received, and no other
application construction happens. -/
theorem args_passed_through_unmodified
    (env : Env) (argc : Int) (argv : List String) :
    Effect.constructApp argc argv ∈ (main env argc argv).1 ∧
      ∀ a v, Effect.constructApp a v ∈ (main env argc argv).1 →
        a = argc ∧ v = argv := by
  cases h : env.rootObjects.isEmpty
  · rw [main_eq_of_nonempty env argc argv h]
    refine ⟨by simp [initTrace], ?_⟩
    intro a v hv
    simp [initTrace] at hv
    exact hv
  · rw [main_eq_of_empty env argc argv h]
    refine ⟨by simp [initTrace], ?_⟩
    intro a v hv
    simp [initTrace] at hv
    exact hv

/-- Witness for C7 at `argc = 2`, `argv = ["timeline", "x"]`. -/
theorem args_passed_through_unmodified_witness :
    Effect.constructApp 2 ["timeline", "x"]
        ∈ (main (Env.mk [] 0) 2 ["timeline", "x"]).1 ∧
      ((2 : Int) = 2 ∧ ["timeline", "x"] = ["timeline", "x"]) :=
  ⟨(args_passed_through_unmodified (Env.mk [] 0) 2 ["timeline", "x"]).1,
    (args_passed_through_unmodified (Env.mk [] 0) 2 ["timeline", "x"]).2
      2 ["timeline", "x"]
      (args_passed_through_unmodified (Env.mk [] 0) 2 ["timeline", "x"]).1⟩

/-- C8: in every execution, the logging filter rule installed is exactly
"qt.webengine*=true" (enabling all categories matching the web-engine name
pattern), it is installed exactly once, and no other filter-rule change is
ever performed by this code. -/
theorem filter_rule_is_webengine_enable_and_persistent
    (env : Env) (argc : Int) (argv : List String) :
    Effect.setFilterRules "qt.webengine*=true" ∈ (main env argc argv).1 ∧
      (∀ r, Effect.setFilterRules r ∈ (main env argc argv).1 →
        r = "qt.webengine*=true") ∧
      countKind (main env argc argv).1 .setFilterRules = 1 := by
  cases h : env.rootObjects.isEmpty
  · rw [main_eq_of_nonempty env argc argv h]
    refine ⟨by simp [initTrace], ?_, rfl⟩
    intro r hr
    simp [initTrace] at hr
    exact hr
  · rw [main_eq_of_empty env argc argv h]
    refine ⟨by simp [initTrace], ?_, rfl⟩
    intro r hr
    simp [initTrace] at hr
    exact hr

/-- Witness for C8: the uniqueness part applied at the filter rule `main`
itself installs. -/
theorem filter_rule_is_webengine_enable_and_persistent_witness :
    Effect.setFilterRules "qt.webengine*=true" ∈ (main (Env.mk [] 0) 0 []).1 ∧
      "qt.webengine*=true" = "qt.webengine*=true" :=
  ⟨(filter_rule_is_webengine_enable_and_persistent (Env.mk [] 0) 0 []).1,
    (filter_rule_is_webengine_enable_and_persistent (Env.mk [] 0) 0 []).2.1
      "qt.webengine*=true"
      (filter_rule_is_webengine_enable_and_persistent (Env.mk [] 0) 0 []).1⟩

/-- C9: on the early-failure path the trace is exactly the initialization
prefix: the last effect is the root-object query itself, no web-engine
shutdown, no message emission and no event-loop entry happen after it, and
`-1` is returned. -/
theorem failure_path_performs_no_further_effect
    (env : Env) (argc : Int) (argv : List String)
    (h : env.rootObjects.isEmpty = true) :
    (main env argc argv).1 = initTrace argc argv ∧
      (main env argc argv).1.getLast? = some Effect.queryRootObjects ∧
      countKind (main env argc argv).1 .shutdownWebEngine = 0 ∧
      countKind (main env argc argv).1 .emitMessage = 0 ∧
      countKind (main env argc argv).1 .execLoop = 0 ∧
      (main env argc argv).2 = -1 := by
  rw [main_eq_of_empty env argc argv h]
  exact ⟨rfl, rfl, rfl, rfl, rfl, rfl⟩

/-- Witness for C9 at the environment with no root objects. -/
theorem failure_path_performs_no_further_effect_witness :
    (Env.mk [] 0).rootObjects.isEmpty = true ∧
      ((main (Env.mk [] 0) 0 []).1 = initTrace 0 [] ∧
        (main (Env.mk [] 0) 0 []).1.getLast? = some Effect.queryRootObjects ∧
        countKind (main (Env.mk [] 0) 0 []).1 .shutdownWebEngine = 0 ∧
        countKind (main (Env.mk [] 0) 0 []).1 .emitMessage = 0 ∧
        countKind (main (Env.mk [] 0) 0 []).1 .execLoop = 0 ∧
        (main (Env.mk [] 0) 0 []).2 = -1) :=
  ⟨rfl, failure_path_performs_no_further_effect (Env.mk [] 0) 0 [] rfl⟩

/-- C10: two executions in the same environment but with different
command-line arguments perform the same sequence of effect kinds in the
same order, and whether the failure branch (no event-loop entry) is taken
is determined solely by the emptiness of the root-object collection, not by
the arguments. -/
theorem branch_depends_only_on_root_objects
    (env : Env) (a₁ a₂ : Int) (v₁ v₂ : List String) :
    (main env a₁ v₁).1.map Effect.kind = (main env a₂ v₂).1.map Effect.kind ∧
      (tookFailureBranch (main env a₁ v₁) ↔ env.rootObjects.isEmpty = true) ∧
      (tookFailureBranch (main env a₂ v₂) ↔ env.rootObjects.isEmpty = true) := by
  cases h : env.rootObjects.isEmpty
  · rw [main_eq_of_nonempty env a₁ v₁ h, main_eq_of_nonempty env a₂ v₂ h]
    refine ⟨rfl, ?_, ?_⟩ <;> simp [tookFailureBranch, initTrace, h]
  · rw [main_eq_of_empty env a₁ v₁ h, main_eq_of_empty env a₂ v₂ h]
    refine ⟨rfl, ?_, ?_⟩ <;> simp [tookFailureBranch, initTrace, h]

end TimelineEditor
